import Mathlib

/-!
# Assignment-3 / Task 1 : `main.cpp`

A shallow embedding of the one translation unit of the repository,
`src/Assignment-3/Task 1/src/main.cpp`: a GLFW/GLAD program that opens a window,
uploads two constant vertex arrays and draws them in a render loop.

* The decimal literals of the two vertex arrays are read as exact rationals.
* Calls into GLFW, GLAD and OpenGL are recorded in a log of `Call`s, in the order
  in which `main` and `processInput` issue them.  What those libraries answer is
  supplied by an environment `Env`, which is arbitrary.  Calls that GLFW makes back into
  the program while it polls events (`framebuffer_size_callback`) belong to the poll and
  are not part of that log.
* The `while` loop is embedded with a fuel argument; `none` means that the fuel
  ran out before the loop was left.
* Macros of `glad.h` and `glfw3.h` (not part of the source tree) are parameters,
  collected in `Headers`.
-/

namespace Task1

/-! ## Constants and vertex data -/

/-- Values of the macros of `glfw3.h` and `glad.h` that `main.cpp` uses, the size of a
`float`, and whether `__APPLE__` is defined. -/
structure Headers where
  GLFW_CONTEXT_VERSION_MAJOR : Int
  GLFW_CONTEXT_VERSION_MINOR : Int
  GLFW_OPENGL_PROFILE : Int
  GLFW_OPENGL_CORE_PROFILE : Int
  GLFW_OPENGL_FORWARD_COMPAT : Int
  GLFW_KEY_Y : Int
  GLFW_PRESS : Int
  GL_TRUE : Int
  GL_FALSE : Int
  GL_VERTEX_SHADER : Int
  GL_FRAGMENT_SHADER : Int
  GL_ARRAY_BUFFER : Int
  GL_STATIC_DRAW : Int
  GL_FLOAT : Int
  GL_COLOR_BUFFER_BIT : Int
  GL_TRIANGLES : Int
  sizeofFloat : Nat
  apple : Bool

/-- The values these macros have in GLFW 3 and in an OpenGL 3.3 core loader, with a
four byte `float`, on a platform other than macOS. -/
def stdHeaders : Headers where
  GLFW_CONTEXT_VERSION_MAJOR := 0x00022002
  GLFW_CONTEXT_VERSION_MINOR := 0x00022003
  GLFW_OPENGL_PROFILE := 0x00022008
  GLFW_OPENGL_CORE_PROFILE := 0x00032001
  GLFW_OPENGL_FORWARD_COMPAT := 0x00022006
  GLFW_KEY_Y := 89
  GLFW_PRESS := 1
  GL_TRUE := 1
  GL_FALSE := 0
  GL_VERTEX_SHADER := 0x8B31
  GL_FRAGMENT_SHADER := 0x8B30
  GL_ARRAY_BUFFER := 0x8892
  GL_STATIC_DRAW := 0x88E4
  GL_FLOAT := 0x1406
  GL_COLOR_BUFFER_BIT := 0x4000
  GL_TRIANGLES := 4
  sizeofFloat := 4
  apple := false

/-- Line 11: `const unsigned int SCR_WIDTH = 800;` -/
def SCR_WIDTH : Nat := 800

/-- Line 12: `const unsigned int SCR_HEIGHT = 600;` -/
def SCR_HEIGHT : Nat := 600

/-- Lines 15-20, as the C string that `glShaderSource` reads (up to the first NUL). -/
def vertexShaderSource : String :=
  "#version 330 core\n" ++
  "layout (location = 0) in vec3 aPos;\n" ++
  "void main()\n" ++
  "\x7b\n" ++
  "   gl_Position = vec4(aPos, 1.0);\n" ++
  "\x7d"

/-- Lines 23-28, as the C string that `glShaderSource` reads (up to the first NUL). -/
def fragmentShaderSource : String :=
  "#version 330 core\n" ++
  "out vec4 FragColor;\n" ++
  "void main()\n" ++
  "\x7b\n" ++
  "   FragColor = vec4(1.0f, 0.5f, 0.0f, 1.0f);  // Orange\n" ++
  "\x7d\n"

/-- Lines 87-96: `float squareVertices[]`. -/
def squareVertices : List ℚ :=
  [ -0.9, -0.5, 0.0,   -- bottom left
    -0.1, -0.5, 0.0,   -- bottom right
    -0.9,  0.5, 0.0,   -- top left
    -0.9,  0.5, 0.0,   -- top left
    -0.1, -0.5, 0.0,   -- bottom right
    -0.1,  0.5, 0.0 ]  -- top right

/-- Lines 101-105: `float triangleVertices[]`. -/
def triangleVertices : List ℚ :=
  [ 0.3, -0.5, 0.0,    -- vertex A
    0.9, -0.5, 0.0,    -- vertex B
    0.0,  0.5, 0.0 ]   -- vertex C

/-- Line 99, the comment above `triangleVertices`:
`// Chosen vertices: (0.3, -0.3), (0.9, -0.3), (0.2, 0.8)`, laid out like the array,
with `z = 0`. -/
def chosenVertices : List ℚ :=
  [ 0.3, -0.3, 0.0,
    0.9, -0.3, 0.0,
    0.2,  0.8, 0.0 ]

/-! ## Reading the arrays as vertices

Both arrays are handed to OpenGL with three components per vertex, tightly packed
(`glVertexAttribPointer(0, 3, GL_FLOAT, GL_FALSE, 3 * sizeof(float), (void*)0)`), and the
vertex shader passes `aPos` through unchanged, so vertex `i` of an array is made of its
entries `3 i`, `3 i + 1` and `3 i + 2`, in normalized device coordinates. -/

/-- The x coordinate of vertex `i`. -/
def vx (a : List ℚ) (i : Nat) : ℚ := a.getD (3 * i) 0

/-- The y coordinate of vertex `i`. -/
def vy (a : List ℚ) (i : Nat) : ℚ := a.getD (3 * i + 1) 0

/-- The z coordinate of vertex `i`. -/
def vz (a : List ℚ) (i : Nat) : ℚ := a.getD (3 * i + 2) 0

/-- Vertex `i` projected on the window plane. -/
def vxy (a : List ℚ) (i : Nat) : ℚ × ℚ := (vx a i, vy a i)

/-- Twice the signed area of the triangle `p q r`; positive when `p q r` turn
counter-clockwise. -/
def cross2 (p q r : ℚ × ℚ) : ℚ :=
  (q.1 - p.1) * (r.2 - p.2) - (q.2 - p.2) * (r.1 - p.1)

/-- The signed area of the triangle `p q r`. -/
def signedArea (p q r : ℚ × ℚ) : ℚ := cross2 p q r / 2

/-- The dot product of the two edge vectors that leave `p`, towards `q` and `r`. -/
def dotAt (p q r : ℚ × ℚ) : ℚ :=
  (q.1 - p.1) * (r.1 - p.1) + (q.2 - p.2) * (r.2 - p.2)

/-- The dot product of the two edges leaving vertex `i` (taken modulo 3) of the triangle
formed by the vertices `3 k`, `3 k + 1`, `3 k + 2` of the array. -/
def dotAtVertex (a : List ℚ) (k : Nat) (i : Fin 3) : ℚ :=
  dotAt (vxy a (3 * k + i.val)) (vxy a (3 * k + (i.val + 1) % 3)) (vxy a (3 * k + (i.val + 2) % 3))

/-- The closed triangle with counter-clockwise corners `p q r`. -/
def inTriangle (p q r : ℚ × ℚ) (x y : ℚ) : Prop :=
  0 ≤ cross2 p q (x, y) ∧ 0 ≤ cross2 q r (x, y) ∧ 0 ≤ cross2 r p (x, y)

/-- Triangle number `k` that `glDrawArrays(GL_TRIANGLES, 0, _)` assembles from an array:
vertices `3 k`, `3 k + 1`, `3 k + 2`. -/
def inTriangleOf (a : List ℚ) (k : Nat) (x y : ℚ) : Prop :=
  inTriangle (vxy a (3 * k)) (vxy a (3 * k + 1)) (vxy a (3 * k + 2)) x y

/-- The horizontal extent, in pixels of the `SCR_WIDTH` wide window, of the first `n`
vertices of an array: normalized device x runs over `[-1, 1]`, so one unit is
`SCR_WIDTH / 2` pixels. -/
def widthPx (a : List ℚ) (n : Nat) : ℚ :=
  let xs := (List.range n).map (vx a)
  (xs.foldl max (vx a 0) - xs.foldl min (vx a 0)) * (SCR_WIDTH / 2 : ℚ)

/-- The vertical extent, in pixels of the `SCR_HEIGHT` high window, of the first `n`
vertices of an array: one unit of normalized device y is `SCR_HEIGHT / 2` pixels. -/
def heightPx (a : List ℚ) (n : Nat) : ℚ :=
  let ys := (List.range n).map (vy a)
  (ys.foldl max (vy a 0) - ys.foldl min (vy a 0)) * (SCR_HEIGHT / 2 : ℚ)

/-! ## The libraries as seen from `main.cpp` -/

/-- One call that the program makes into GLFW, GLAD, OpenGL or the C++ stream library,
with the arguments it passes.  Window, shader, program, vertex-array and buffer handles
are natural numbers; a `NULL` pointer argument is left out. -/
inductive Call where
  | glfwInit
  | glfwWindowHint (hint value : Int)
  | glfwCreateWindow (width height : Nat) (title : String)
  | cout (text : String)
  | glfwTerminate
  | glfwMakeContextCurrent (window : Nat)
  | glfwSetFramebufferSizeCallback (window : Nat)
  | gladLoadGLLoader
  | glCreateShader (type : Int)
  | glShaderSource (shader count : Nat) (source : String)
  | glCompileShader (shader : Nat)
  | glCreateProgram
  | glAttachShader (program shader : Nat)
  | glLinkProgram (program : Nat)
  | glDeleteShader (shader : Nat)
  | glGenVertexArrays (n : Nat)
  | glGenBuffers (n : Nat)
  | glBindVertexArray (array : Nat)
  | glBindBuffer (target : Int) (buffer : Nat)
  | glBufferData (target : Int) (size : Nat) (data : List ℚ) (usage : Int)
  | glVertexAttribPointer (index : Nat) (size : Nat) (type normalized : Int)
      (stride pointer : Nat)
  | glEnableVertexAttribArray (index : Nat)
  | glfwWindowShouldClose (window : Nat)
  | glfwGetKey (window : Nat) (key : Int)
  | glfwSetWindowShouldClose (window : Nat) (value : Bool)
  | glClearColor (red green blue alpha : ℚ)
  | glClear (mask : Int)
  | glUseProgram (program : Nat)
  | glDrawArrays (mode : Int) (first count : Nat)
  | glfwSwapBuffers (window : Nat)
  | glfwPollEvents
  | glDeleteVertexArrays (n array : Nat)
  | glDeleteBuffers (n buffer : Nat)
  | glDeleteProgram (program : Nat)
  | glViewport (x y width height : Int)
  deriving DecidableEq

/-- The library function a call goes to, with the arguments forgotten. -/
inductive Fn where
  | glfwInit | glfwWindowHint | glfwCreateWindow | cout | glfwTerminate
  | glfwMakeContextCurrent | glfwSetFramebufferSizeCallback | gladLoadGLLoader
  | glCreateShader | glShaderSource | glCompileShader | glCreateProgram | glAttachShader
  | glLinkProgram | glDeleteShader | glGenVertexArrays | glGenBuffers | glBindVertexArray
  | glBindBuffer | glBufferData | glVertexAttribPointer | glEnableVertexAttribArray
  | glfwWindowShouldClose | glfwGetKey | glfwSetWindowShouldClose | glClearColor | glClear
  | glUseProgram | glDrawArrays | glfwSwapBuffers | glfwPollEvents | glDeleteVertexArrays
  | glDeleteBuffers | glDeleteProgram | glViewport
  deriving DecidableEq

/-- The function that a call goes to. -/
def Call.fn : Call → Fn
  | .glfwInit => .glfwInit
  | .glfwWindowHint _ _ => .glfwWindowHint
  | .glfwCreateWindow _ _ _ => .glfwCreateWindow
  | .cout _ => .cout
  | .glfwTerminate => .glfwTerminate
  | .glfwMakeContextCurrent _ => .glfwMakeContextCurrent
  | .glfwSetFramebufferSizeCallback _ => .glfwSetFramebufferSizeCallback
  | .gladLoadGLLoader => .gladLoadGLLoader
  | .glCreateShader _ => .glCreateShader
  | .glShaderSource _ _ _ => .glShaderSource
  | .glCompileShader _ => .glCompileShader
  | .glCreateProgram => .glCreateProgram
  | .glAttachShader _ _ => .glAttachShader
  | .glLinkProgram _ => .glLinkProgram
  | .glDeleteShader _ => .glDeleteShader
  | .glGenVertexArrays _ => .glGenVertexArrays
  | .glGenBuffers _ => .glGenBuffers
  | .glBindVertexArray _ => .glBindVertexArray
  | .glBindBuffer _ _ => .glBindBuffer
  | .glBufferData _ _ _ _ => .glBufferData
  | .glVertexAttribPointer _ _ _ _ _ _ => .glVertexAttribPointer
  | .glEnableVertexAttribArray _ => .glEnableVertexAttribArray
  | .glfwWindowShouldClose _ => .glfwWindowShouldClose
  | .glfwGetKey _ _ => .glfwGetKey
  | .glfwSetWindowShouldClose _ _ => .glfwSetWindowShouldClose
  | .glClearColor _ _ _ _ => .glClearColor
  | .glClear _ => .glClear
  | .glUseProgram _ => .glUseProgram
  | .glDrawArrays _ _ _ => .glDrawArrays
  | .glfwSwapBuffers _ => .glfwSwapBuffers
  | .glfwPollEvents => .glfwPollEvents
  | .glDeleteVertexArrays _ _ => .glDeleteVertexArrays
  | .glDeleteBuffers _ _ => .glDeleteBuffers
  | .glDeleteProgram _ => .glDeleteProgram
  | .glViewport _ _ _ _ => .glViewport

/-- The part of a GLFW window that the program reads or writes: its should-close flag and
the last reported state of every key. -/
structure WinState where
  shouldClose : Bool
  key : Int → Int

/-- What the libraries answer.  Nothing is assumed about any field.

* `glfwInit`, `glCompileShader`, `glLinkProgram` and `glError` are outcomes that the program
  has no expression for: the value of `glfwInit()` is discarded, and the compile, link and
  error states of OpenGL are never queried.
* `glfwCreateWindow` is the handle of the new window, `none` for `NULL`; `window` is the
  state in which that window is created.
* `gladLoadGLLoader` is the `int` that the loader returns.
* `glCreateShader k`, `glGenVertexArrays k`, `glGenBuffers k` are the names handed out by
  the `k`-th call of that function, `glCreateProgram` the name of the program.
* `glfwPollEvents k` is what the `k`-th event poll does to the window: key presses and
  releases, and close requests of the user. -/
structure Env where
  glfwInit : Int
  glfwCreateWindow : Option Nat
  window : WinState
  gladLoadGLLoader : Int
  glCreateShader : Nat → Nat
  glCompileShader : Nat → Bool
  glCreateProgram : Nat
  glLinkProgram : Bool
  glGenVertexArrays : Nat → Nat
  glGenBuffers : Nat → Nat
  glError : Nat → Int
  glfwPollEvents : Nat → WinState → WinState

/-- The state that the program and the libraries share while `main` runs: the window, the
number of event polls so far, and the log of calls, oldest first. -/
structure World where
  win : WinState
  polls : Nat
  calls : List Call

/-- A library call of which the program uses no result. -/
def call (c : Call) (s : World) : World :=
  { s with calls := s.calls ++ [c] }

/-- The call `glfwWindowShouldClose(window)`: reads the flag. -/
def glfwWindowShouldClose (window : Nat) (s : World) : Bool × World :=
  (s.win.shouldClose, call (.glfwWindowShouldClose window) s)

/-- The call `glfwGetKey(window, key)`: reads the last reported state of the key. -/
def glfwGetKey (window : Nat) (key : Int) (s : World) : Int × World :=
  (s.win.key key, call (.glfwGetKey window key) s)

/-- The call `glfwSetWindowShouldClose(window, value)`: writes the flag. -/
def glfwSetWindowShouldClose (window : Nat) (value : Bool) (s : World) : World :=
  call (.glfwSetWindowShouldClose window value) { s with win := { s.win with shouldClose := value } }

/-- The call `glfwPollEvents()`: the environment processes the pending events. -/
def glfwPollEvents (env : Env) (s : World) : World :=
  call .glfwPollEvents
    { s with win := env.glfwPollEvents s.polls s.win, polls := s.polls + 1 }

/-! ## The program -/

/-- Lines 175-179.
```
void processInput(GLFWwindow *window)
{
    if (glfwGetKey(window, GLFW_KEY_Y) == GLFW_PRESS)
        glfwSetWindowShouldClose(window, true);
}
``` -/
def processInput (h : Headers) (window : Nat) (s : World) : World :=
  let (state, s) := glfwGetKey window h.GLFW_KEY_Y s
  if state = h.GLFW_PRESS then
    glfwSetWindowShouldClose window true s
  else
    s

/-- Lines 182-187.  GLFW calls this function, while it polls events, each time the size of
the framebuffer changes.
```
void framebuffer_size_callback(GLFWwindow* window, int width, int height)
{
    glViewport(0, 0, width, height);
}
``` -/
def framebuffer_size_callback (_window : Nat) (width height : Int) (s : World) : World :=
  call (.glViewport 0 0 width height) s

/-- Lines 136-159, the render loop.  One unit of fuel pays for one evaluation of the loop
condition. -/
def renderLoop (h : Headers) (env : Env) (window shaderProgram VAO_square VAO_triangle : Nat) :
    Nat → World → Option World
  | 0, _ => none
  | fuel + 1, s =>
    let (close, s) := glfwWindowShouldClose window s
    if close then
      some s
    else
      let s := processInput h window s
      let s := call (.glClearColor 1.0 1.0 1.0 1.0) s
      let s := call (.glClear h.GL_COLOR_BUFFER_BIT) s
      let s := call (.glUseProgram shaderProgram) s
      let s := call (.glBindVertexArray VAO_square) s
      let s := call (.glDrawArrays h.GL_TRIANGLES 0 6) s
      let s := call (.glBindVertexArray VAO_triangle) s
      let s := call (.glDrawArrays h.GL_TRIANGLES 0 3) s
      let s := call (.glfwSwapBuffers window) s
      let s := glfwPollEvents env s
      renderLoop h env window shaderProgram VAO_square VAO_triangle fuel s

/-- How a run of `main` ends: the value it returns and the calls it made. -/
structure Run where
  status : Int
  calls : List Call

/-- What a log of calls wrote to standard output. -/
def stdout : List Call → String
  | [] => ""
  | .cout text :: cs => text ++ stdout cs
  | _ :: cs => stdout cs

/-- The value of `sizeof` for a `float` array. -/
def sizeofArray (h : Headers) (a : List ℚ) : Nat := a.length * h.sizeofFloat

/-- Lines 30-171, `int main()`.  The result is `none` when the fuel does not suffice to
leave the render loop. -/
def main (h : Headers) (env : Env) (fuel : Nat) : Option Run :=
  let s : World := { win := { shouldClose := false, key := fun _ => 0 }, polls := 0, calls := [] }
  let s := call .glfwInit s
  let s := call (.glfwWindowHint h.GLFW_CONTEXT_VERSION_MAJOR 3) s
  let s := call (.glfwWindowHint h.GLFW_CONTEXT_VERSION_MINOR 3) s
  let s := call (.glfwWindowHint h.GLFW_OPENGL_PROFILE h.GLFW_OPENGL_CORE_PROFILE) s
  let s := if h.apple then call (.glfwWindowHint h.GLFW_OPENGL_FORWARD_COMPAT h.GL_TRUE) s else s
  let s := call (.glfwCreateWindow SCR_WIDTH SCR_HEIGHT "Younus") s
  match env.glfwCreateWindow with
  | none =>
    let s := call (.cout "Failed to create GLFW window\n") s
    let s := call .glfwTerminate s
    some { status := -1, calls := s.calls }
  | some window =>
    let s := { s with win := env.window }
    let s := call (.glfwMakeContextCurrent window) s
    let s := call (.glfwSetFramebufferSizeCallback window) s
    let s := call .gladLoadGLLoader s
    if env.gladLoadGLLoader = 0 then
      let s := call (.cout "Failed to initialize GLAD\n") s
      some { status := -1, calls := s.calls }
    else
      let s := call (.glCreateShader h.GL_VERTEX_SHADER) s
      let vertexShader := env.glCreateShader 0
      let s := call (.glShaderSource vertexShader 1 vertexShaderSource) s
      let s := call (.glCompileShader vertexShader) s
      let s := call (.glCreateShader h.GL_FRAGMENT_SHADER) s
      let fragmentShader := env.glCreateShader 1
      let s := call (.glShaderSource fragmentShader 1 fragmentShaderSource) s
      let s := call (.glCompileShader fragmentShader) s
      let s := call .glCreateProgram s
      let shaderProgram := env.glCreateProgram
      let s := call (.glAttachShader shaderProgram vertexShader) s
      let s := call (.glAttachShader shaderProgram fragmentShader) s
      let s := call (.glLinkProgram shaderProgram) s
      let s := call (.glDeleteShader vertexShader) s
      let s := call (.glDeleteShader fragmentShader) s
      let s := call (.glGenVertexArrays 1) s
      let VAO_square := env.glGenVertexArrays 0
      let s := call (.glGenBuffers 1) s
      let VBO_square := env.glGenBuffers 0
      let s := call (.glBindVertexArray VAO_square) s
      let s := call (.glBindBuffer h.GL_ARRAY_BUFFER VBO_square) s
      let s := call (.glBufferData h.GL_ARRAY_BUFFER (sizeofArray h squareVertices)
        squareVertices h.GL_STATIC_DRAW) s
      let s := call (.glVertexAttribPointer 0 3 h.GL_FLOAT h.GL_FALSE (3 * h.sizeofFloat) 0) s
      let s := call (.glEnableVertexAttribArray 0) s
      let s := call (.glBindBuffer h.GL_ARRAY_BUFFER 0) s
      let s := call (.glBindVertexArray 0) s
      let s := call (.glGenVertexArrays 1) s
      let VAO_triangle := env.glGenVertexArrays 1
      let s := call (.glGenBuffers 1) s
      let VBO_triangle := env.glGenBuffers 1
      let s := call (.glBindVertexArray VAO_triangle) s
      let s := call (.glBindBuffer h.GL_ARRAY_BUFFER VBO_triangle) s
      let s := call (.glBufferData h.GL_ARRAY_BUFFER (sizeofArray h triangleVertices)
        triangleVertices h.GL_STATIC_DRAW) s
      let s := call (.glVertexAttribPointer 0 3 h.GL_FLOAT h.GL_FALSE (3 * h.sizeofFloat) 0) s
      let s := call (.glEnableVertexAttribArray 0) s
      let s := call (.glBindBuffer h.GL_ARRAY_BUFFER 0) s
      let s := call (.glBindVertexArray 0) s
      match renderLoop h env window shaderProgram VAO_square VAO_triangle fuel s with
      | none => none
      | some s =>
        let s := call (.glDeleteVertexArrays 1 VAO_square) s
        let s := call (.glDeleteBuffers 1 VBO_square) s
        let s := call (.glDeleteVertexArrays 1 VAO_triangle) s
        let s := call (.glDeleteBuffers 1 VBO_triangle) s
        let s := call (.glDeleteProgram shaderProgram) s
        let s := call .glfwTerminate s
        some { status := 0, calls := s.calls }

/-- An environment for examples: the window is created with handle 1, the loader succeeds,
names are handed out in increasing order, no key is ever pressed, and the window is in
the given state when created and keeps it. -/
def quietEnv (w : WinState) : Env where
  glfwInit := 1
  glfwCreateWindow := some 1
  window := w
  gladLoadGLLoader := 1
  glCreateShader := fun k => k + 1
  glCompileShader := fun _ => true
  glCreateProgram := 3
  glLinkProgram := true
  glGenVertexArrays := fun k => k + 1
  glGenBuffers := fun k => k + 1
  glError := fun _ => 0
  glfwPollEvents := fun _ w => w

/-- A window with no key pressed. -/
def idleWindow (close : Bool) : WinState := { shouldClose := close, key := fun _ => 0 }

/-- A window on which only the key with the given code is pressed. -/
def keyDown (code : Int) : WinState :=
  { shouldClose := false, key := fun k => if k = code then 1 else 0 }

/-- An environment in which window creation fails. -/
def noWindowEnv : Env := { quietEnv (idleWindow false) with glfwCreateWindow := none }

/-- An environment in which the window is created and the loader fails. -/
def noLoaderEnv : Env := { quietEnv (idleWindow false) with gladLoadGLLoader := 0 }

/-- An environment in which the user asks to close the window during the `n`-th event poll
(counting from 1), and not before. -/
def closingEnv (n : Nat) : Env :=
  { quietEnv (idleWindow false) with
    glfwPollEvents := fun k v => if k + 1 = n then { v with shouldClose := true } else v }

/-- An environment that answers like `e` where the program looks (window creation succeeds,
the loader succeeds, the window is created in the same state and the event polls do the
same) and differently everywhere else: `glfwInit` fails, nothing compiles or links, every
name handed out is 7, the window handle is 42 and the loader returns -5. -/
def carelessEnv (e : Env) : Env :=
  { e with
    glfwInit := 0
    glfwCreateWindow := some 42
    gladLoadGLLoader := -5
    glCreateShader := fun _ => 7
    glCompileShader := fun _ => false
    glCreateProgram := 7
    glLinkProgram := false
    glGenVertexArrays := fun _ => 7
    glGenBuffers := fun _ => 7
    glError := fun _ => 1282 }

/-! ## The shape of a run -/

/-- What `processInput` makes of a window in state `w`. -/
def afterInput (h : Headers) (w : WinState) : WinState :=
  (processInput h 0 { win := w, polls := 0, calls := [] }).win

/-- The state of the window when the loop condition is evaluated for the `k`-th time
(counting from 0), as long as the loop is still running: the window is created in state
`env.window`, and between two evaluations `processInput` and then the event poll act on
it. -/
def winAt (h : Headers) (env : Env) : Nat → WinState
  | 0 => env.window
  | k + 1 => env.glfwPollEvents k (afterInput h (winAt h env k))

/-- The calls of lines 34-44, up to and including `glfwCreateWindow`. -/
def initCalls (h : Headers) : List Call :=
  [ .glfwInit,
    .glfwWindowHint h.GLFW_CONTEXT_VERSION_MAJOR 3,
    .glfwWindowHint h.GLFW_CONTEXT_VERSION_MINOR 3,
    .glfwWindowHint h.GLFW_OPENGL_PROFILE h.GLFW_OPENGL_CORE_PROFILE ] ++
  (if h.apple then [ .glfwWindowHint h.GLFW_OPENGL_FORWARD_COMPAT h.GL_TRUE ] else []) ++
  [ .glfwCreateWindow 800 600 "Younus" ]

/-- The calls of lines 51-55, from making the context current to the loader. -/
def contextCalls (window : Nat) : List Call :=
  [ .glfwMakeContextCurrent window, .glfwSetFramebufferSizeCallback window, .gladLoadGLLoader ]

/-- The calls of lines 64-84, which build the shader program. -/
def shaderCalls (h : Headers) (vertexShader fragmentShader shaderProgram : Nat) : List Call :=
  [ .glCreateShader h.GL_VERTEX_SHADER,
    .glShaderSource vertexShader 1 vertexShaderSource,
    .glCompileShader vertexShader,
    .glCreateShader h.GL_FRAGMENT_SHADER,
    .glShaderSource fragmentShader 1 fragmentShaderSource,
    .glCompileShader fragmentShader,
    .glCreateProgram,
    .glAttachShader shaderProgram vertexShader,
    .glAttachShader shaderProgram fragmentShader,
    .glLinkProgram shaderProgram,
    .glDeleteShader vertexShader,
    .glDeleteShader fragmentShader ]

/-- The calls of lines 109-119 and of lines 123-133, which upload one vertex array. -/
def uploadCalls (h : Headers) (vao vbo : Nat) (data : List ℚ) : List Call :=
  [ .glGenVertexArrays 1,
    .glGenBuffers 1,
    .glBindVertexArray vao,
    .glBindBuffer h.GL_ARRAY_BUFFER vbo,
    .glBufferData h.GL_ARRAY_BUFFER (data.length * h.sizeofFloat) data h.GL_STATIC_DRAW,
    .glVertexAttribPointer 0 3 h.GL_FLOAT h.GL_FALSE (3 * h.sizeofFloat) 0,
    .glEnableVertexAttribArray 0,
    .glBindBuffer h.GL_ARRAY_BUFFER 0,
    .glBindVertexArray 0 ]

/-- Everything `main` calls before the render loop when both checks pass. -/
def setupCalls (h : Headers) (env : Env) (window : Nat) : List Call :=
  initCalls h ++ contextCalls window ++
  shaderCalls h (env.glCreateShader 0) (env.glCreateShader 1) env.glCreateProgram ++
  uploadCalls h (env.glGenVertexArrays 0) (env.glGenBuffers 0) squareVertices ++
  uploadCalls h (env.glGenVertexArrays 1) (env.glGenBuffers 1) triangleVertices

/-- What `processInput` calls when the window is in state `w`. -/
def inputCalls (h : Headers) (window : Nat) (w : WinState) : List Call :=
  .glfwGetKey window h.GLFW_KEY_Y ::
    (if w.key h.GLFW_KEY_Y = h.GLFW_PRESS then [ .glfwSetWindowShouldClose window true ] else [])

/-- The frame: what one iteration of the render loop calls after `processInput`. -/
def frameCalls (h : Headers) (window shaderProgram VAO_square VAO_triangle : Nat) : List Call :=
  [ .glClearColor 1 1 1 1,
    .glClear h.GL_COLOR_BUFFER_BIT,
    .glUseProgram shaderProgram,
    .glBindVertexArray VAO_square,
    .glDrawArrays h.GL_TRIANGLES 0 6,
    .glBindVertexArray VAO_triangle,
    .glDrawArrays h.GL_TRIANGLES 0 3,
    .glfwSwapBuffers window,
    .glfwPollEvents ]

/-- One pass of the render loop that finds the window in state `w`: the loop test, then
`processInput`, then the frame. -/
def iterationCalls (h : Headers) (env : Env) (window : Nat) (w : WinState) : List Call :=
  .glfwWindowShouldClose window :: inputCalls h window w ++
    frameCalls h window env.glCreateProgram (env.glGenVertexArrays 0) (env.glGenVertexArrays 1)

/-- The calls of the render loop when it is left at its `n`-th test (counting from 0). -/
def loopCalls (h : Headers) (env : Env) (window n : Nat) : List Call :=
  (List.range n).flatMap (fun k => iterationCalls h env window (winAt h env k)) ++
    [ .glfwWindowShouldClose window ]

/-- The calls of lines 162-169, after the render loop. -/
def cleanupCalls (env : Env) : List Call :=
  [ .glDeleteVertexArrays 1 (env.glGenVertexArrays 0),
    .glDeleteBuffers 1 (env.glGenBuffers 0),
    .glDeleteVertexArrays 1 (env.glGenVertexArrays 1),
    .glDeleteBuffers 1 (env.glGenBuffers 1),
    .glDeleteProgram env.glCreateProgram,
    .glfwTerminate ]

/-- The loop is left at its `n`-th test: the should-close flag is clear at every earlier
test and set at this one. -/
def LeavesAt (h : Headers) (env : Env) (n : Nat) : Prop :=
  (∀ k, k < n → (winAt h env k).shouldClose = false) ∧
    (winAt h env n).shouldClose = true

/-! ## Vertex fetch: what a draw call reads

The part of the OpenGL object model that decides which bytes `glDrawArrays` reads.  A buffer
object holds the data last given to `glBufferData` while it was bound to
`GL_ARRAY_BUFFER`; a vertex array object remembers, for attribute 0, the buffer that was
bound to `GL_ARRAY_BUFFER` when `glVertexAttribPointer` was called, with the layout given
there; `glDrawArrays` fetches through the vertex array object that is bound.  The name 0
stands for no object. -/

/-- Where attribute 0 of a vertex array object points: a buffer, the number of components
per vertex, and the stride and the offset of the first vertex in bytes. -/
structure Attrib where
  buffer : Nat
  size : Nat
  stride : Nat
  pointer : Nat

/-- One `glDrawArrays` as it is carried out: the vertex array object bound, the range of
vertices, the attribute of that object, and the size in bytes and the contents of the
buffer the attribute points into. -/
structure Draw where
  array : Nat
  first : Nat
  count : Nat
  attrib : Option Attrib
  store : Option (Nat × List ℚ)

/-- The state of the objects. -/
structure Objects where
  arrayBuffer : Nat
  vertexArray : Nat
  store : Nat → Option (Nat × List ℚ)
  attrib : Nat → Option Attrib
  draws : List Draw

/-- The effect of one call on the objects. -/
def Objects.step (h : Headers) (g : Objects) : Call → Objects
  | .glBindVertexArray a => { g with vertexArray := a }
  | .glBindBuffer target b =>
    if target = h.GL_ARRAY_BUFFER then { g with arrayBuffer := b } else g
  | .glBufferData target size data _ =>
    if target = h.GL_ARRAY_BUFFER ∧ g.arrayBuffer ≠ 0 then
      { g with store := fun b => if b = g.arrayBuffer then some (size, data) else g.store b }
    else g
  | .glVertexAttribPointer index size _ _ stride pointer =>
    if index = 0 ∧ g.vertexArray ≠ 0 then
      { g with attrib := fun a =>
          if a = g.vertexArray then
            some { buffer := g.arrayBuffer, size := size, stride := stride, pointer := pointer }
          else g.attrib a }
    else g
  | .glDrawArrays _ first count =>
    { g with draws := g.draws ++
        [{ array := g.vertexArray, first := first, count := count,
           attrib := g.attrib g.vertexArray,
           store := (g.attrib g.vertexArray).bind (fun a => g.store a.buffer) }] }
  | .glDeleteBuffers _ b => { g with store := fun k => if k = b then none else g.store k }
  | .glDeleteVertexArrays _ a => { g with attrib := fun k => if k = a then none else g.attrib k }
  | _ => g

/-- The objects after a log of calls, starting with no object. -/
def Objects.replay (h : Headers) (cs : List Call) : Objects :=
  cs.foldl (Objects.step h)
    { arrayBuffer := 0, vertexArray := 0, store := fun _ => none, attrib := fun _ => none,
      draws := [] }

/-- The draw stays inside its buffer: the last vertex fetched ends at or before the end of
the buffer. -/
def Draw.InBounds (h : Headers) (d : Draw) : Prop :=
  ∃ a size data, d.attrib = some a ∧ d.store = some (size, data) ∧
    (d.count = 0 ∨
      a.pointer + (d.first + d.count - 1) * a.stride + a.size * h.sizeofFloat ≤ size)

/-- The draw fetches every vertex of its buffer: it starts at the first one, vertices are
packed without gaps, and the vertices drawn make up all floats of the buffer. -/
def Draw.Exhausts (h : Headers) (d : Draw) : Prop :=
  ∃ a size data, d.attrib = some a ∧ d.store = some (size, data) ∧
    d.first = 0 ∧ a.pointer = 0 ∧ a.stride = a.size * h.sizeofFloat ∧
    size = data.length * h.sizeofFloat ∧ d.count * a.size = data.length

/-- The draw of the square in a run with environment `env`. -/
def squareDraw (h : Headers) (env : Env) : Draw :=
  { array := env.glGenVertexArrays 0, first := 0, count := 6,
    attrib := some { buffer := env.glGenBuffers 0, size := 3, stride := 3 * h.sizeofFloat,
                     pointer := 0 },
    store := some (18 * h.sizeofFloat, squareVertices) }

/-- The draw of the triangle in a run with environment `env`. -/
def triangleDraw (h : Headers) (env : Env) : Draw :=
  { array := env.glGenVertexArrays 1, first := 0, count := 3,
    attrib := some { buffer := env.glGenBuffers 1, size := 3, stride := 3 * h.sizeofFloat,
                     pointer := 0 },
    store := some (9 * h.sizeofFloat, triangleVertices) }

/-- The names handed out by `glGenVertexArrays` and `glGenBuffers` are names of objects
(not 0) and the second differs from the first, as OpenGL guarantees. -/
def FreshNames (env : Env) : Prop :=
  env.glGenVertexArrays 0 ≠ 0 ∧ env.glGenVertexArrays 1 ≠ 0 ∧
  env.glGenVertexArrays 0 ≠ env.glGenVertexArrays 1 ∧
  env.glGenBuffers 0 ≠ 0 ∧ env.glGenBuffers 1 ≠ 0 ∧ env.glGenBuffers 0 ≠ env.glGenBuffers 1

/-- Both uploads are in place and every draw so far was one of the two intended ones. -/
def Objects.Ready (h : Headers) (env : Env) (g : Objects) : Prop :=
  g.attrib (env.glGenVertexArrays 0) = (squareDraw h env).attrib ∧
  g.attrib (env.glGenVertexArrays 1) = (triangleDraw h env).attrib ∧
  g.store (env.glGenBuffers 0) = (squareDraw h env).store ∧
  g.store (env.glGenBuffers 1) = (triangleDraw h env).store ∧
  ∀ d ∈ g.draws, d = squareDraw h env ∨ d = triangleDraw h env

/-! ## Lemmas on the program -/

theorem processInput_win (h : Headers) (window : Nat) (s : World) :
    (processInput h window s).win = afterInput h s.win := by
  unfold afterInput processInput glfwGetKey glfwSetWindowShouldClose call
  dsimp only
  split <;> rfl

theorem processInput_polls (h : Headers) (window : Nat) (s : World) :
    (processInput h window s).polls = s.polls := by
  unfold processInput glfwGetKey glfwSetWindowShouldClose call
  dsimp only
  split <;> rfl

theorem processInput_calls (h : Headers) (window : Nat) (s : World) :
    (processInput h window s).calls = s.calls ++ inputCalls h window s.win := by
  unfold processInput glfwGetKey glfwSetWindowShouldClose call inputCalls
  dsimp only
  split <;> simp

/-- One pass through the loop body when the flag is clear. -/
theorem renderLoop_step (h : Headers) (env : Env) (window fuel : Nat) (s : World)
    (hc : s.win.shouldClose = false) :
    renderLoop h env window env.glCreateProgram (env.glGenVertexArrays 0)
        (env.glGenVertexArrays 1) (fuel + 1) s =
      renderLoop h env window env.glCreateProgram (env.glGenVertexArrays 0)
        (env.glGenVertexArrays 1) fuel
        { win := env.glfwPollEvents s.polls (afterInput h s.win),
          polls := s.polls + 1,
          calls := s.calls ++ iterationCalls h env window s.win } := by
  have one : (1.0 : ℚ) = 1 := by norm_num
  conv_lhs => unfold renderLoop
  simp only [glfwWindowShouldClose, hc, glfwPollEvents, call, processInput_win,
    processInput_polls, processInput_calls, iterationCalls, frameCalls, one]
  simp

/-- The loop stops at a test that finds the flag set. -/
theorem renderLoop_stop (h : Headers) (env : Env) (window p a b fuel : Nat) (s : World)
    (hc : s.win.shouldClose = true) :
    renderLoop h env window p a b (fuel + 1) s =
      some { s with calls := s.calls ++ [Call.glfwWindowShouldClose window] } := by
  conv_lhs => unfold renderLoop
  simp [glfwWindowShouldClose, hc, call]

/-- The loop from its `j`-th test on, when it is left at test `j + d`. -/
theorem renderLoop_run (h : Headers) (env : Env) (window : Nat) :
    ∀ (d j : Nat), (∀ k, j ≤ k → k < j + d → (winAt h env k).shouldClose = false) →
      (winAt h env (j + d)).shouldClose = true →
      ∀ (l : List Call) (fuel : Nat), d < fuel →
        renderLoop h env window env.glCreateProgram (env.glGenVertexArrays 0)
            (env.glGenVertexArrays 1) fuel { win := winAt h env j, polls := j, calls := l } =
          some { win := winAt h env (j + d), polls := j + d,
                 calls := l ++ (List.range d).flatMap
                     (fun i => iterationCalls h env window (winAt h env (j + i))) ++
                   [Call.glfwWindowShouldClose window] } := by
  intro d
  induction d with
  | zero =>
    intro j _ ht l fuel hf
    obtain ⟨f, rfl⟩ : ∃ f, fuel = f + 1 := ⟨fuel - 1, by omega⟩
    rw [renderLoop_stop _ _ _ _ _ _ _ _ (by simpa using ht)]
    simp
  | succ d ih =>
    intro j hfalse ht l fuel hf
    obtain ⟨f, rfl⟩ : ∃ f, fuel = f + 1 := ⟨fuel - 1, by omega⟩
    rw [renderLoop_step _ _ _ _ _ (hfalse j (Nat.le_refl j) (by omega))]
    have hw : env.glfwPollEvents j (afterInput h (winAt h env j)) = winAt h env (j + 1) := rfl
    simp only [hw]
    rw [ih (j + 1) (fun k hk1 hk2 => hfalse k (by omega) (by omega))
      (by rw [show j + 1 + d = j + (d + 1) by omega]; exact ht) _ f (by omega)]
    simp only [List.range_succ_eq_map, List.flatMap_cons, List.flatMap_map, Nat.add_zero,
      List.append_assoc, Option.some.injEq]
    have e : ∀ i, j + 1 + i = j + Nat.succ i := fun i => by omega
    simp [Function.comp_def, e, show j + 1 + d = j + (d + 1) by omega]

/-- A loop that is left was left at some test within the fuel. -/
theorem renderLoop_some (h : Headers) (env : Env) (window : Nat) :
    ∀ (fuel j : Nat) (l : List Call) (t : World),
      renderLoop h env window env.glCreateProgram (env.glGenVertexArrays 0)
          (env.glGenVertexArrays 1) fuel { win := winAt h env j, polls := j, calls := l } =
        some t →
      ∃ d, d < fuel ∧ (∀ k, j ≤ k → k < j + d → (winAt h env k).shouldClose = false) ∧
        (winAt h env (j + d)).shouldClose = true := by
  intro fuel
  induction fuel with
  | zero => intro j l t ht; simp [renderLoop] at ht
  | succ f ih =>
    intro j l t ht
    cases hc : (winAt h env j).shouldClose with
    | true => exact ⟨0, by omega, fun k h1 h2 => by omega, by simpa using hc⟩
    | false =>
      rw [renderLoop_step _ _ _ _ _ (by simpa using hc)] at ht
      have hw : env.glfwPollEvents j (afterInput h (winAt h env j)) = winAt h env (j + 1) := rfl
      simp only [hw] at ht
      obtain ⟨d, hd, hfalse, htrue⟩ := ih (j + 1) _ t ht
      refine ⟨d + 1, by omega, ?_, ?_⟩
      · intro k h1 h2
        rcases Nat.eq_or_lt_of_le h1 with rfl | h3
        · exact hc
        · exact hfalse k (by omega) (by omega)
      · rw [show j + (d + 1) = j + 1 + d by omega]; exact htrue

/-- The straight-line part of `main` when both checks pass. -/
theorem main_setup (h : Headers) (env : Env) (fuel window : Nat)
    (hw : env.glfwCreateWindow = some window) (hg : env.gladLoadGLLoader ≠ 0) :
    main h env fuel =
      (renderLoop h env window env.glCreateProgram (env.glGenVertexArrays 0)
          (env.glGenVertexArrays 1) fuel
          { win := winAt h env 0, polls := 0, calls := setupCalls h env window }).map
        (fun s => { status := 0, calls := s.calls ++ cleanupCalls env }) := by
  unfold main
  simp only [hw, hg, if_false, call, setupCalls, initCalls, contextCalls, shaderCalls,
    uploadCalls, cleanupCalls, winAt, sizeofArray, SCR_WIDTH, SCR_HEIGHT]
  cases h.apple <;> simp <;>
    cases renderLoop h env window env.glCreateProgram (env.glGenVertexArrays 0)
      (env.glGenVertexArrays 1) fuel _ <;> simp

/-- A run of `main` in which both checks pass is a run that leaves the render loop at some
test within the fuel, and its log is then the setup, the loop and the clean-up. -/
theorem main_some_iff (h : Headers) (env : Env) (fuel window : Nat) (r : Run)
    (hw : env.glfwCreateWindow = some window) (hg : env.gladLoadGLLoader ≠ 0) :
    main h env fuel = some r ↔
      ∃ n, n < fuel ∧ LeavesAt h env n ∧
        r = { status := 0,
              calls := setupCalls h env window ++ loopCalls h env window n ++ cleanupCalls env } := by
  rw [main_setup h env fuel window hw hg]
  constructor
  · intro hr
    cases hl : renderLoop h env window env.glCreateProgram (env.glGenVertexArrays 0)
        (env.glGenVertexArrays 1) fuel
        { win := winAt h env 0, polls := 0, calls := setupCalls h env window } with
    | none => rw [hl] at hr; simp at hr
    | some t =>
      obtain ⟨d, hd, hfalse, htrue⟩ := renderLoop_some h env window fuel 0 _ t hl
      refine ⟨d, hd, ⟨fun k hk => hfalse k (Nat.zero_le k) (by omega), by simpa using htrue⟩, ?_⟩
      rw [renderLoop_run h env window d 0 hfalse htrue _ fuel hd] at hr
      simp only [Option.map_some', Option.some.injEq] at hr
      rw [← hr]
      simp [loopCalls]
  · rintro ⟨n, hn, ⟨hfalse, htrue⟩, rfl⟩
    rw [renderLoop_run h env window n 0 (fun k _ hk => hfalse k (by omega))
      (by simpa using htrue) _ fuel hn]
    simp [loopCalls]

/-! ## The vertex data -/

/-- C6 (the code departs from the claim): the quad of `squareVertices` covers exactly the
axis-aligned rectangle `[-0.9, -0.1] x [-0.5, 0.5]`, which in the 800 x 600 window is
320 pixels wide and 300 pixels high, so its width and its height differ. -/
theorem squareVertices_is_320_by_300 :
    (∀ x y : ℚ, (inTriangleOf squareVertices 0 x y ∨ inTriangleOf squareVertices 1 x y) ↔
      (-0.9 ≤ x ∧ x ≤ -0.1 ∧ -0.5 ≤ y ∧ y ≤ 0.5)) ∧
    widthPx squareVertices 6 = 320 ∧ heightPx squareVertices 6 = 300 ∧
    widthPx squareVertices 6 ≠ heightPx squareVertices 6 := by
  have hw : widthPx squareVertices 6 = 320 := by
    simp [widthPx, vx, squareVertices, List.range, List.range.loop, SCR_WIDTH]
    norm_num
  have hh : heightPx squareVertices 6 = 300 := by
    simp [heightPx, vy, squareVertices, List.range, List.range.loop, SCR_HEIGHT]
    norm_num
  refine ⟨?_, hw, hh, by rw [hw, hh]; norm_num⟩
  intro x y
  simp only [inTriangleOf, inTriangle, cross2, vxy, vx, vy, squareVertices]
  norm_num
  constructor
  · rintro (⟨h1, h2, h3⟩ | ⟨h1, h2, h3⟩) <;> refine ⟨?_, ?_, ?_, ?_⟩ <;> linarith
  · rintro ⟨h1, h2, h3, h4⟩
    by_cases hd : 0 ≤ (-(1 / 10) + 9 / 10) * (y - 1 / 2) - (-(1 / 2) - 1 / 2) * (x + 9 / 10)
    · right
      refine ⟨?_, ?_, ?_⟩ <;> linarith
    · left
      refine ⟨?_, ?_, ?_⟩ <;> linarith

/-- C7: the triangle of `triangleVertices` is obtuse: its corners are not collinear, and
the dot product of the two edges leaving a corner is negative at exactly one corner (the
first, vertex A). -/
theorem triangleVertices_obtuse :
    cross2 (vxy triangleVertices 0) (vxy triangleVertices 1) (vxy triangleVertices 2) ≠ 0 ∧
    (∃! i : Fin 3, dotAtVertex triangleVertices 0 i < 0) ∧
    dotAtVertex triangleVertices 0 0 < 0 := by
  have key : ∀ i : Fin 3, dotAtVertex triangleVertices 0 i < 0 ↔ i = 0 := by
    intro i
    fin_cases i <;> simp [dotAtVertex, dotAt, vxy, vx, vy, triangleVertices] <;> norm_num
  refine ⟨?_, ⟨0, (key 0).2 rfl, fun i hi => (key i).1 hi⟩, (key 0).2 rfl⟩
  simp [cross2, vxy, vx, vy, triangleVertices]
  norm_num

/-- C8 (the code departs from the claim): vertex C of `triangleVertices` has `x = 0`, so it
is not the case that every vertex of `squareVertices` has `x < 0` and every vertex of
`triangleVertices` has `x > 0`.  The vertices that the comment on line 99 names are all
three to the right of the centre line, and the array is not those vertices: the comment
puts vertex C at `x = 0.2`. -/
theorem triangleVertices_not_all_positive :
    vx triangleVertices 2 = 0 ∧
    ¬ ((∀ i, i < 6 → vx squareVertices i < 0) ∧ (∀ i, i < 3 → 0 < vx triangleVertices i)) ∧
    (∀ i, i < 3 → 0 < vx chosenVertices i) ∧
    vx chosenVertices 2 = 0.2 ∧
    triangleVertices ≠ chosenVertices := by
  have hc : vx triangleVertices 2 = 0 := by simp [vx, triangleVertices]; norm_num
  have hd : vx chosenVertices 2 = 0.2 := by simp [vx, chosenVertices]
  refine ⟨hc, ?_, ?_, hd, ?_⟩
  · rintro ⟨-, ht⟩
    have := ht 2 (by norm_num)
    rw [hc] at this
    exact lt_irrefl _ this
  · intro i hi
    interval_cases i <;> simp [vx, chosenVertices] <;> norm_num
  · intro he
    rw [he, hd] at hc
    norm_num at hc

/-- Where the two arrays do lie: every vertex of `squareVertices` has `x ≤ -0.1`, every
vertex of `triangleVertices` has `x ≥ 0`, with vertex C on the line `x = 0` and the other two
to the right of it; every point of the quad has `x ≤ -0.1` and every point of the triangle
has `x ≥ 0`, so no point belongs to both shapes. -/
theorem square_left_triangle_right :
    (∀ i, i < 6 → vx squareVertices i ≤ -0.1) ∧
    (∀ i, i < 3 → 0 ≤ vx triangleVertices i) ∧
    0 < vx triangleVertices 0 ∧ 0 < vx triangleVertices 1 ∧ vx triangleVertices 2 = 0 ∧
    (∀ x y : ℚ, inTriangleOf squareVertices 0 x y ∨ inTriangleOf squareVertices 1 x y →
      x ≤ -0.1) ∧
    (∀ x y : ℚ, inTriangleOf triangleVertices 0 x y → 0 ≤ x) ∧
    (∀ x y : ℚ, ¬ ((inTriangleOf squareVertices 0 x y ∨ inTriangleOf squareVertices 1 x y) ∧
      inTriangleOf triangleVertices 0 x y)) := by
  have hs : ∀ x y : ℚ, inTriangleOf squareVertices 0 x y ∨ inTriangleOf squareVertices 1 x y →
      x ≤ -0.1 := by
    intro x y
    simp only [inTriangleOf, inTriangle, cross2, vxy, vx, vy, squareVertices]
    norm_num
    rintro (⟨h1, h2, h3⟩ | ⟨h1, h2, h3⟩) <;> linarith
  have ht : ∀ x y : ℚ, inTriangleOf triangleVertices 0 x y → 0 ≤ x := by
    intro x y
    simp only [inTriangleOf, inTriangle, cross2, vxy, vx, vy, triangleVertices]
    norm_num
    intro h1 h2 h3
    linarith
  refine ⟨?_, ?_, ?_, ?_, ?_, hs, ht, ?_⟩
  · intro i hi
    interval_cases i <;> simp [vx, squareVertices] <;> norm_num
  · intro i hi
    interval_cases i <;> simp [vx, triangleVertices] <;> norm_num
  · simp [vx, triangleVertices]; norm_num
  · simp [vx, triangleVertices]; norm_num
  · simp [vx, triangleVertices]; norm_num
  · rintro x y ⟨h1, h2⟩
    have a := hs x y h1
    have b := ht x y h2
    norm_num at a
    linarith

/-- C9: the three triangles are non-degenerate and counter-clockwise; the two triangles of
the quad have exactly the corners top-left `(-0.9, 0.5)` and bottom-right `(-0.1, -0.5)` in
common and their third corners lie strictly on opposite sides of that diagonal; their areas
add up to the area of the rectangle `[-0.9, -0.1] x [-0.5, 0.5]`, their union is that
rectangle and they meet only on the diagonal; every vertex of both arrays has `z = 0` and
`x`, `y` in `[-1, 1]`. -/
theorem squareVertices_tiles_quad :
    0 < signedArea (vxy squareVertices 0) (vxy squareVertices 1) (vxy squareVertices 2) ∧
    0 < signedArea (vxy squareVertices 3) (vxy squareVertices 4) (vxy squareVertices 5) ∧
    0 < signedArea (vxy triangleVertices 0) (vxy triangleVertices 1) (vxy triangleVertices 2) ∧
    vxy squareVertices 2 = (-0.9, 0.5) ∧ vxy squareVertices 3 = (-0.9, 0.5) ∧
    vxy squareVertices 1 = (-0.1, -0.5) ∧ vxy squareVertices 4 = (-0.1, -0.5) ∧
    (∀ i j, i < 3 → 3 ≤ j → j < 6 →
      (vxy squareVertices i = vxy squareVertices j ↔ (i = 2 ∧ j = 3) ∨ (i = 1 ∧ j = 4))) ∧
    cross2 (vxy squareVertices 3) (vxy squareVertices 4) (vxy squareVertices 0) < 0 ∧
    0 < cross2 (vxy squareVertices 3) (vxy squareVertices 4) (vxy squareVertices 5) ∧
    signedArea (vxy squareVertices 0) (vxy squareVertices 1) (vxy squareVertices 2) +
        signedArea (vxy squareVertices 3) (vxy squareVertices 4) (vxy squareVertices 5) =
      (-0.1 - -0.9) * (0.5 - -0.5) ∧
    (∀ x y : ℚ, (inTriangleOf squareVertices 0 x y ∨ inTriangleOf squareVertices 1 x y) ↔
      (-0.9 ≤ x ∧ x ≤ -0.1 ∧ -0.5 ≤ y ∧ y ≤ 0.5)) ∧
    (∀ x y : ℚ, inTriangleOf squareVertices 0 x y → inTriangleOf squareVertices 1 x y →
      cross2 (vxy squareVertices 3) (vxy squareVertices 4) (x, y) = 0) ∧
    (∀ i, i < 6 → vz squareVertices i = 0 ∧ -1 ≤ vx squareVertices i ∧
      vx squareVertices i ≤ 1 ∧ -1 ≤ vy squareVertices i ∧ vy squareVertices i ≤ 1) ∧
    (∀ i, i < 3 → vz triangleVertices i = 0 ∧ -1 ≤ vx triangleVertices i ∧
      vx triangleVertices i ≤ 1 ∧ -1 ≤ vy triangleVertices i ∧ vy triangleVertices i ≤ 1) := by
  refine ⟨?_, ?_, ?_, ?_, ?_, ?_, ?_, ?_, ?_, ?_, ?_, ?_, ?_, ?_, ?_⟩
  · simp [signedArea, cross2, vxy, vx, vy, squareVertices]; norm_num
  · simp [signedArea, cross2, vxy, vx, vy, squareVertices]; norm_num
  · simp [signedArea, cross2, vxy, vx, vy, triangleVertices]; norm_num
  · simp [vxy, vx, vy, squareVertices]
  · simp [vxy, vx, vy, squareVertices]
  · simp [vxy, vx, vy, squareVertices]
  · simp [vxy, vx, vy, squareVertices]
  · intro i j hi hj3 hj6
    interval_cases i <;> interval_cases j <;>
      simp [vxy, vx, vy, squareVertices] <;> norm_num
  · simp [cross2, vxy, vx, vy, squareVertices]; norm_num
  · simp [cross2, vxy, vx, vy, squareVertices]; norm_num
  · simp [signedArea, cross2, vxy, vx, vy, squareVertices]; norm_num
  · intro x y
    simp only [inTriangleOf, inTriangle, cross2, vxy, vx, vy, squareVertices]
    norm_num
    constructor
    · rintro (⟨h1, h2, h3⟩ | ⟨h1, h2, h3⟩) <;> refine ⟨?_, ?_, ?_, ?_⟩ <;> linarith
    · rintro ⟨h1, h2, h3, h4⟩
      by_cases hd : 0 ≤ (-(1 / 10) + 9 / 10) * (y - 1 / 2) - (-(1 / 2) - 1 / 2) * (x + 9 / 10)
      · right
        refine ⟨?_, ?_, ?_⟩ <;> linarith
      · left
        refine ⟨?_, ?_, ?_⟩ <;> linarith
  · intro x y
    simp only [inTriangleOf, inTriangle, cross2, vxy, vx, vy, squareVertices]
    norm_num
    intro h1 h2 h3 h4 h5 h6
    linarith
  · intro i hi
    interval_cases i <;> simp [vx, vy, vz, squareVertices] <;> norm_num
  · intro i hi
    interval_cases i <;> simp [vx, vy, vz, triangleVertices] <;> norm_num

/-! ## The program: failure points, exit status, render loop, input -/

theorem stdout_append (a b : List Call) : stdout (a ++ b) = stdout a ++ stdout b := by
  induction a with
  | nil => simp [stdout]
  | cons c a ih => cases c <;> simp [stdout, ih, String.append_assoc]

theorem stdout_initCalls (h : Headers) : stdout (initCalls h) = "" := by
  unfold initCalls
  cases h.apple <;> rfl

/-- The run of `main` when no window is created. -/
theorem main_no_window (h : Headers) (env : Env) (fuel : Nat)
    (hw : env.glfwCreateWindow = none) :
    main h env fuel = some { status := -1, calls := initCalls h ++
      [Call.cout "Failed to create GLFW window\n", Call.glfwTerminate] } := by
  unfold main
  simp only [hw, call, initCalls, SCR_WIDTH, SCR_HEIGHT]
  cases h.apple <;> simp

/-- The run of `main` when the window is created and the loader fails. -/
theorem main_no_loader (h : Headers) (env : Env) (fuel window : Nat)
    (hw : env.glfwCreateWindow = some window) (hg : env.gladLoadGLLoader = 0) :
    main h env fuel = some { status := -1, calls := initCalls h ++ contextCalls window ++
      [Call.cout "Failed to initialize GLAD\n"] } := by
  unfold main
  simp only [hw, hg, call, initCalls, contextCalls, SCR_WIDTH, SCR_HEIGHT]
  cases h.apple <;> simp

/-- C1: whatever the libraries answer otherwise and whatever the fuel, (a) if
`glfwCreateWindow` returns `NULL`, `main` returns -1, what it printed is exactly
"Failed to create GLFW window\n", and its calls are the GLFW initialisation, the message and
`glfwTerminate`; (b) if the window is created and `gladLoadGLLoader` returns 0, `main`
returns -1, what it printed is exactly "Failed to initialize GLAD\n", and its calls are the
GLFW initialisation, the three context calls and the message.  In both cases no call
creates a shader, a program, a buffer or a vertex array, and none draws, swaps or polls. -/
theorem main_checked_failures (h : Headers) (env : Env) (fuel : Nat) :
    (env.glfwCreateWindow = none →
      ∃ r, main h env fuel = some r ∧ r.status = -1 ∧ r.status ≠ 0 ∧
        stdout r.calls = "Failed to create GLFW window\n" ∧
        r.calls = initCalls h ++
          [Call.cout "Failed to create GLFW window\n", Call.glfwTerminate] ∧
        ∀ c ∈ r.calls, c.fn ∉ [Fn.glCreateShader, Fn.glCreateProgram, Fn.glGenBuffers,
          Fn.glGenVertexArrays, Fn.glDrawArrays, Fn.glfwSwapBuffers, Fn.glfwPollEvents]) ∧
    (∀ window, env.glfwCreateWindow = some window → env.gladLoadGLLoader = 0 →
      ∃ r, main h env fuel = some r ∧ r.status = -1 ∧ r.status ≠ 0 ∧
        stdout r.calls = "Failed to initialize GLAD\n" ∧
        r.calls = initCalls h ++ contextCalls window ++
          [Call.cout "Failed to initialize GLAD\n"] ∧
        ∀ c ∈ r.calls, c.fn ∉ [Fn.glCreateShader, Fn.glCreateProgram, Fn.glGenBuffers,
          Fn.glGenVertexArrays, Fn.glDrawArrays, Fn.glfwSwapBuffers, Fn.glfwPollEvents]) := by
  constructor
  · intro hw
    refine ⟨{ status := -1, calls := initCalls h ++
      [Call.cout "Failed to create GLFW window\n", Call.glfwTerminate] }, ?_, rfl, by simp,
      ?_, rfl, ?_⟩
    · exact main_no_window h env fuel hw
    · simp only [stdout_append, stdout_initCalls]
      decide
    · simp only [initCalls]
      cases h.apple <;> simp [Call.fn]
  · intro window hw hg
    refine ⟨{ status := -1, calls := initCalls h ++ contextCalls window ++
      [Call.cout "Failed to initialize GLAD\n"] }, ?_, rfl, by simp, ?_, rfl, ?_⟩
    · exact main_no_loader h env fuel window hw hg
    · have hctx : stdout (contextCalls window) = "" := rfl
      simp only [stdout_append, stdout_initCalls, hctx]
      decide
    · simp only [initCalls, contextCalls]
      cases h.apple <;> simp [Call.fn]

/-- C1, at two environments: one in which no window is created, one in which the loader
fails. -/
theorem main_checked_failures_witness :
    noWindowEnv.glfwCreateWindow = none ∧
    (∃ r, main stdHeaders noWindowEnv 0 = some r ∧ r.status = -1 ∧ r.status ≠ 0 ∧
      stdout r.calls = "Failed to create GLFW window\n" ∧
      r.calls = initCalls stdHeaders ++
        [Call.cout "Failed to create GLFW window\n", Call.glfwTerminate] ∧
      ∀ c ∈ r.calls, c.fn ∉ [Fn.glCreateShader, Fn.glCreateProgram, Fn.glGenBuffers,
        Fn.glGenVertexArrays, Fn.glDrawArrays, Fn.glfwSwapBuffers, Fn.glfwPollEvents]) ∧
    noLoaderEnv.glfwCreateWindow = some 1 ∧ noLoaderEnv.gladLoadGLLoader = 0 ∧
    (∃ r, main stdHeaders noLoaderEnv 0 = some r ∧ r.status = -1 ∧ r.status ≠ 0 ∧
      stdout r.calls = "Failed to initialize GLAD\n" ∧
      r.calls = initCalls stdHeaders ++ contextCalls 1 ++
        [Call.cout "Failed to initialize GLAD\n"] ∧
      ∀ c ∈ r.calls, c.fn ∉ [Fn.glCreateShader, Fn.glCreateProgram, Fn.glGenBuffers,
        Fn.glGenVertexArrays, Fn.glDrawArrays, Fn.glfwSwapBuffers, Fn.glfwPollEvents]) :=
  ⟨rfl, (main_checked_failures stdHeaders noWindowEnv 0).1 rfl, rfl, rfl,
    (main_checked_failures stdHeaders noLoaderEnv 0).2 1 rfl rfl⟩

/-- C4: `processInput` asks once for the state of the Y key.  If the answer is
`GLFW_PRESS` it calls `glfwSetWindowShouldClose(window, true)`, after which the flag is set
and the key states are as before; otherwise it makes no further call and the window and the
poll count are as before.  A flag that is set stays set, and the flag afterwards depends on
nothing but the flag before and the state of the Y key, whatever the other keys are. -/
theorem processInput_closes_exactly_on_Y (h : Headers) (window : Nat) (s : World) :
    (s.win.key h.GLFW_KEY_Y = h.GLFW_PRESS →
      (processInput h window s).win.shouldClose = true ∧
      (processInput h window s).win.key = s.win.key ∧
      (processInput h window s).polls = s.polls ∧
      (processInput h window s).calls = s.calls ++
        [Call.glfwGetKey window h.GLFW_KEY_Y, Call.glfwSetWindowShouldClose window true]) ∧
    (s.win.key h.GLFW_KEY_Y ≠ h.GLFW_PRESS →
      (processInput h window s).win = s.win ∧
      (processInput h window s).polls = s.polls ∧
      (processInput h window s).calls = s.calls ++ [Call.glfwGetKey window h.GLFW_KEY_Y]) ∧
    (s.win.shouldClose = true → (processInput h window s).win.shouldClose = true) ∧
    ((processInput h window s).win.shouldClose =
      (s.win.shouldClose || decide (s.win.key h.GLFW_KEY_Y = h.GLFW_PRESS))) ∧
    (∀ t : World, t.win.key h.GLFW_KEY_Y = s.win.key h.GLFW_KEY_Y →
      t.win.shouldClose = s.win.shouldClose →
      (processInput h window t).win.shouldClose = (processInput h window s).win.shouldClose) := by
  have hflag : ∀ u : World, (processInput h window u).win.shouldClose =
      (u.win.shouldClose || decide (u.win.key h.GLFW_KEY_Y = h.GLFW_PRESS)) := by
    intro u
    unfold processInput glfwGetKey glfwSetWindowShouldClose call
    dsimp only
    split <;> simp_all
  refine ⟨?_, ?_, ?_, hflag s, ?_⟩
  · intro hy
    unfold processInput glfwGetKey glfwSetWindowShouldClose call
    simp [hy]
  · intro hy
    unfold processInput glfwGetKey glfwSetWindowShouldClose call
    simp [hy]
  · intro hc
    rw [hflag, hc]
    rfl
  · intro t hk hc
    rw [hflag, hflag, hk, hc]

/-- C4, at a window on which Y is pressed, at one on which only another key is pressed, and
at one whose flag is already set. -/
theorem processInput_closes_exactly_on_Y_witness :
    (keyDown 89).key stdHeaders.GLFW_KEY_Y = stdHeaders.GLFW_PRESS ∧
    (processInput stdHeaders 1 { win := keyDown 89, polls := 0, calls := [] }).win.shouldClose
      = true ∧
    (keyDown 78).key stdHeaders.GLFW_KEY_Y ≠ stdHeaders.GLFW_PRESS ∧
    (processInput stdHeaders 1 { win := keyDown 78, polls := 0, calls := [] }).win
      = keyDown 78 ∧
    (idleWindow true).shouldClose = true ∧
    (processInput stdHeaders 1 { win := idleWindow true, polls := 0, calls := [] }).win.shouldClose
      = true :=
  ⟨by decide,
    ((processInput_closes_exactly_on_Y stdHeaders 1
      { win := keyDown 89, polls := 0, calls := [] }).1 (by decide)).1,
    by decide,
    ((processInput_closes_exactly_on_Y stdHeaders 1
      { win := keyDown 78, polls := 0, calls := [] }).2.1 (by decide)).1,
    rfl,
    (processInput_closes_exactly_on_Y stdHeaders 1
      { win := idleWindow true, polls := 0, calls := [] }).2.2.1 rfl⟩

/-- C3: when both checks pass, `main` returns exactly if the should-close flag is found set
at some loop test `n` within the fuel, and clear at every test before; it then returns 0
and its calls are the setup, then for each `k < n` one iteration made of the loop test, the
calls of `processInput`, and the frame (white clear colour, clear of the colour buffer, use
of the one program, bind of the square array, draw of 6 vertices from 0 as triangles, bind
of the triangle array, draw of 3 vertices from 0 as triangles, buffer swap, event poll),
then the loop test that ends the loop, then the clean-up.  An iteration in which
`processInput` sets the flag is complete like every other, and if the event poll leaves
the flag set the loop ends at the very next test. -/
theorem render_loop_shape (h : Headers) (env : Env) (fuel window : Nat) (r : Run)
    (hw : env.glfwCreateWindow = some window) (hg : env.gladLoadGLLoader ≠ 0) :
    main h env fuel = some r ↔
      ∃ n, n < fuel ∧
        (∀ k, k < n → (winAt h env k).shouldClose = false) ∧
        (winAt h env n).shouldClose = true ∧
        r.status = 0 ∧
        r.calls = setupCalls h env window ++
          (List.range n).flatMap (fun k =>
            [Call.glfwWindowShouldClose window] ++
            (processInput h window { win := winAt h env k, polls := k, calls := [] }).calls ++
            [ Call.glClearColor 1 1 1 1,
              Call.glClear h.GL_COLOR_BUFFER_BIT,
              Call.glUseProgram env.glCreateProgram,
              Call.glBindVertexArray (env.glGenVertexArrays 0),
              Call.glDrawArrays h.GL_TRIANGLES 0 6,
              Call.glBindVertexArray (env.glGenVertexArrays 1),
              Call.glDrawArrays h.GL_TRIANGLES 0 3,
              Call.glfwSwapBuffers window,
              Call.glfwPollEvents ]) ++
          [Call.glfwWindowShouldClose window] ++ cleanupCalls env ∧
        (∀ k, k < n →
          (processInput h window { win := winAt h env k, polls := k, calls := [] }).win.shouldClose
            = true →
          (env.glfwPollEvents k
            (processInput h window { win := winAt h env k, polls := k, calls := [] }).win).shouldClose
            = true →
          n = k + 1) := by
  have hcalls : ∀ n,
      setupCalls h env window ++ loopCalls h env window n ++ cleanupCalls env =
        setupCalls h env window ++
          (List.range n).flatMap (fun k =>
            [Call.glfwWindowShouldClose window] ++
            (processInput h window { win := winAt h env k, polls := k, calls := [] }).calls ++
            [ Call.glClearColor 1 1 1 1,
              Call.glClear h.GL_COLOR_BUFFER_BIT,
              Call.glUseProgram env.glCreateProgram,
              Call.glBindVertexArray (env.glGenVertexArrays 0),
              Call.glDrawArrays h.GL_TRIANGLES 0 6,
              Call.glBindVertexArray (env.glGenVertexArrays 1),
              Call.glDrawArrays h.GL_TRIANGLES 0 3,
              Call.glfwSwapBuffers window,
              Call.glfwPollEvents ]) ++
          [Call.glfwWindowShouldClose window] ++ cleanupCalls env := by
    intro n
    simp [loopCalls, iterationCalls, frameCalls, processInput_calls]
  rw [main_some_iff h env fuel window r hw hg]
  constructor
  · rintro ⟨n, hn, ⟨hfalse, htrue⟩, rfl⟩
    refine ⟨n, hn, hfalse, htrue, rfl, hcalls n, ?_⟩
    intro k hk _ hp
    rw [processInput_win] at hp
    have hk1 : (winAt h env (k + 1)).shouldClose = true := hp
    by_contra hne
    have := hfalse (k + 1) (by omega)
    rw [hk1] at this
    exact Bool.noConfusion this
  · rintro ⟨n, hn, hfalse, htrue, hs, hc, -⟩
    refine ⟨n, hn, ⟨hfalse, htrue⟩, ?_⟩
    cases r with
    | mk status calls =>
      simp only at hs hc
      rw [hs, hc, hcalls n]

/-- C3, at a run in which the Y key is down from the start: the first iteration sets the
flag and is completed, and the second loop test ends the loop. -/
theorem render_loop_shape_witness :
    (quietEnv (keyDown 89)).glfwCreateWindow = some 1 ∧
    (quietEnv (keyDown 89)).gladLoadGLLoader ≠ 0 ∧
    ∃ r, main stdHeaders (quietEnv (keyDown 89)) 2 = some r ∧
      ∃ n, n < 2 ∧
        (∀ k, k < n → (winAt stdHeaders (quietEnv (keyDown 89)) k).shouldClose = false) ∧
        (winAt stdHeaders (quietEnv (keyDown 89)) n).shouldClose = true ∧
        r.status = 0 ∧
        r.calls = setupCalls stdHeaders (quietEnv (keyDown 89)) 1 ++
          (List.range n).flatMap (fun k =>
            [Call.glfwWindowShouldClose 1] ++
            (processInput stdHeaders 1
              { win := winAt stdHeaders (quietEnv (keyDown 89)) k, polls := k, calls := [] }).calls ++
            [ Call.glClearColor 1 1 1 1,
              Call.glClear stdHeaders.GL_COLOR_BUFFER_BIT,
              Call.glUseProgram (quietEnv (keyDown 89)).glCreateProgram,
              Call.glBindVertexArray ((quietEnv (keyDown 89)).glGenVertexArrays 0),
              Call.glDrawArrays stdHeaders.GL_TRIANGLES 0 6,
              Call.glBindVertexArray ((quietEnv (keyDown 89)).glGenVertexArrays 1),
              Call.glDrawArrays stdHeaders.GL_TRIANGLES 0 3,
              Call.glfwSwapBuffers 1,
              Call.glfwPollEvents ]) ++
          [Call.glfwWindowShouldClose 1] ++ cleanupCalls (quietEnv (keyDown 89)) ∧
        (∀ k, k < n →
          (processInput stdHeaders 1
            { win := winAt stdHeaders (quietEnv (keyDown 89)) k, polls := k,
              calls := [] }).win.shouldClose = true →
          ((quietEnv (keyDown 89)).glfwPollEvents k
            (processInput stdHeaders 1
              { win := winAt stdHeaders (quietEnv (keyDown 89)) k, polls := k,
                calls := [] }).win).shouldClose = true →
          n = k + 1) := by
  refine ⟨rfl, by decide, ?_⟩
  obtain ⟨r, hr⟩ := Option.isSome_iff_exists.mp
    (show (main stdHeaders (quietEnv (keyDown 89)) 2).isSome = true by decide)
  exact ⟨r, hr, (render_loop_shape stdHeaders (quietEnv (keyDown 89)) 2 1 r rfl (by decide)).mp hr⟩

theorem setupCalls_fn (h : Headers) (e1 e2 : Env) (w1 w2 : Nat) :
    (setupCalls h e1 w1).map Call.fn = (setupCalls h e2 w2).map Call.fn := by
  unfold setupCalls initCalls contextCalls shaderCalls uploadCalls
  cases h.apple <;> simp [Call.fn]

theorem loopCalls_fn (h : Headers) (e1 e2 : Env) (w1 w2 n : Nat)
    (hkey : ∀ k, (winAt h e1 k).key h.GLFW_KEY_Y = (winAt h e2 k).key h.GLFW_KEY_Y) :
    (loopCalls h e1 w1 n).map Call.fn = (loopCalls h e2 w2 n).map Call.fn := by
  unfold loopCalls
  simp only [List.map_append, List.map_flatMap]
  have hit : ∀ k, (iterationCalls h e1 w1 (winAt h e1 k)).map Call.fn =
      (iterationCalls h e2 w2 (winAt h e2 k)).map Call.fn := by
    intro k
    unfold iterationCalls inputCalls frameCalls
    rw [hkey k]
    split <;> simp [Call.fn]
  simp [hit, Call.fn]

theorem LeavesAt_congr (h : Headers) (e1 e2 : Env) (n : Nat)
    (hflag : ∀ k, (winAt h e1 k).shouldClose = (winAt h e2 k).shouldClose) :
    LeavesAt h e1 n ↔ LeavesAt h e2 n := by
  unfold LeavesAt
  simp [hflag]

/-- C2 as stated fails.  Two environments that give the same answers to
`glfwCreateWindow` and `gladLoadGLLoader` and to every other call except the second
`glfwWindowShouldClose`: in the first the user closes the window during the first event
poll, in the second during the second.  Both runs return 0, the first makes 56 calls and
draws twice, the second makes 67 calls and draws four times, so the sequences of functions
called differ. -/
theorem calls_depend_on_glfwWindowShouldClose :
    (closingEnv 1).glfwCreateWindow = (closingEnv 2).glfwCreateWindow ∧
    (closingEnv 1).gladLoadGLLoader = (closingEnv 2).gladLoadGLLoader ∧
    (main stdHeaders (closingEnv 1) 3).map
        (fun r => (r.status, r.calls.length, (r.calls.map Call.fn).count Fn.glDrawArrays)) =
      some (0, 56, 2) ∧
    (main stdHeaders (closingEnv 2) 3).map
        (fun r => (r.status, r.calls.length, (r.calls.map Call.fn).count Fn.glDrawArrays)) =
      some (0, 67, 4) ∧
    (main stdHeaders (closingEnv 1) 3).map (fun r => r.calls.map Call.fn) ≠
      (main stdHeaders (closingEnv 2) 3).map (fun r => r.calls.map Call.fn) ∧
    ¬ (∀ (e1 e2 : Env) (fuel : Nat) (r1 r2 : Run),
        e1.glfwCreateWindow = e2.glfwCreateWindow → e1.gladLoadGLLoader = e2.gladLoadGLLoader →
        main stdHeaders e1 fuel = some r1 → main stdHeaders e2 fuel = some r2 →
        r1.status = r2.status ∧ r1.calls.map Call.fn = r2.calls.map Call.fn) := by
  have h1 : (main stdHeaders (closingEnv 1) 3).map
      (fun r => (r.calls.map Call.fn).length) = some 56 := by decide
  have h2 : (main stdHeaders (closingEnv 2) 3).map
      (fun r => (r.calls.map Call.fn).length) = some 67 := by decide
  refine ⟨rfl, rfl, by decide, by decide, by decide, ?_⟩
  intro hall
  obtain ⟨r1, hr1⟩ := Option.isSome_iff_exists.mp
    (show (main stdHeaders (closingEnv 1) 3).isSome = true by decide)
  obtain ⟨r2, hr2⟩ := Option.isSome_iff_exists.mp
    (show (main stdHeaders (closingEnv 2) 3).isSome = true by decide)
  have := (hall (closingEnv 1) (closingEnv 2) 3 r1 r2 rfl rfl hr1 hr2).2
  rw [hr1] at h1
  rw [hr2] at h2
  simp only [Option.map_some', Option.some.injEq] at h1 h2
  rw [this] at h1
  omega

/-- C2 amended: a run of `main` that returns, returns -1 if `glfwCreateWindow` returned
`NULL` or `gladLoadGLLoader` returned 0, and returns 0 otherwise.  Two environments that
agree on whether `glfwCreateWindow` returns `NULL`, on whether `gladLoadGLLoader` returns
0, and on what `glfwWindowShouldClose` and `glfwGetKey(window, GLFW_KEY_Y)` return at every
loop test, give the same outcome: `main` returns in both or in neither, with the same
status and the same sequence of library functions called, whatever the other calls
answer. -/
theorem status_and_calls_depend_on_checks_and_window_queries
    (h : Headers) (e1 e2 : Env) (fuel : Nat)
    (hcw : e1.glfwCreateWindow = none ↔ e2.glfwCreateWindow = none)
    (hgl : e1.gladLoadGLLoader = 0 ↔ e2.gladLoadGLLoader = 0)
    (hflag : ∀ k, (winAt h e1 k).shouldClose = (winAt h e2 k).shouldClose)
    (hkey : ∀ k, (winAt h e1 k).key h.GLFW_KEY_Y = (winAt h e2 k).key h.GLFW_KEY_Y) :
    (main h e1 fuel).map (fun r => (r.status, r.calls.map Call.fn)) =
      (main h e2 fuel).map (fun r => (r.status, r.calls.map Call.fn)) ∧
    (∀ r, main h e1 fuel = some r →
      (r.status ≠ 0 ↔ e1.glfwCreateWindow = none ∨ e1.gladLoadGLLoader = 0) ∧
      (e1.glfwCreateWindow = none ∨ e1.gladLoadGLLoader = 0 → r.status = -1) ∧
      (e1.glfwCreateWindow ≠ none → e1.gladLoadGLLoader ≠ 0 → r.status = 0)) := by
  cases hw1 : e1.glfwCreateWindow with
  | none =>
    have hw2 : e2.glfwCreateWindow = none := hcw.1 hw1
    have hr1 := main_no_window h e1 fuel hw1
    have hr2 := main_no_window h e2 fuel hw2
    refine ⟨by simp [hr1, hr2], ?_⟩
    intro r hr
    have : r = _ := Option.some.inj (hr.symm.trans hr1)
    subst this
    simp
  | some w1 =>
    have hw2n : e2.glfwCreateWindow ≠ none := fun hn => by
      have := hcw.2 hn; rw [hw1] at this; exact Option.noConfusion this
    obtain ⟨w2, hw2⟩ := Option.ne_none_iff_exists'.mp hw2n
    by_cases hg1 : e1.gladLoadGLLoader = 0
    · have hg2 : e2.gladLoadGLLoader = 0 := hgl.1 hg1
      have hr1 := main_no_loader h e1 fuel w1 hw1 hg1
      have hr2 := main_no_loader h e2 fuel w2 hw2 hg2
      refine ⟨?_, ?_⟩
      · simp [hr1, hr2, contextCalls, Call.fn]
      · intro r hr
        have : r = _ := Option.some.inj (hr.symm.trans hr1)
        subst this
        simp [hg1]
    · have hg2 : e2.gladLoadGLLoader ≠ 0 := fun hz => hg1 (hgl.2 hz)
      have hfn : ∀ n,
          (setupCalls h e1 w1 ++ loopCalls h e1 w1 n ++ cleanupCalls e1).map Call.fn =
            (setupCalls h e2 w2 ++ loopCalls h e2 w2 n ++ cleanupCalls e2).map Call.fn := by
        intro n
        simp only [List.map_append, setupCalls_fn h e1 e2 w1 w2,
          loopCalls_fn h e1 e2 w1 w2 n hkey]
        simp [cleanupCalls, Call.fn]
      refine ⟨?_, ?_⟩
      · cases hm1 : main h e1 fuel with
        | none =>
          cases hm2 : main h e2 fuel with
          | none => rfl
          | some r2 =>
            obtain ⟨n, hn, hL, -⟩ := (main_some_iff h e2 fuel w2 r2 hw2 hg2).mp hm2
            have := (main_some_iff h e1 fuel w1 _ hw1 hg1).mpr
              ⟨n, hn, (LeavesAt_congr h e1 e2 n hflag).mpr hL, rfl⟩
            rw [hm1] at this
            exact Option.noConfusion this
        | some r1 =>
          obtain ⟨n, hn, hL, hr⟩ := (main_some_iff h e1 fuel w1 r1 hw1 hg1).mp hm1
          have hm2 := (main_some_iff h e2 fuel w2 _ hw2 hg2).mpr
            ⟨n, hn, (LeavesAt_congr h e1 e2 n hflag).mp hL, rfl⟩
          rw [hm2, hr]
          simp only [Option.map_some', hfn n]
      · intro r hr
        obtain ⟨n, hn, hL, rfl⟩ := (main_some_iff h e1 fuel w1 r hw1 hg1).mp hr
        simp [hg1]

theorem winAt_congr (h : Headers) (e1 e2 : Env) (hwin : e1.window = e2.window)
    (hpoll : e1.glfwPollEvents = e2.glfwPollEvents) (k : Nat) :
    winAt h e1 k = winAt h e2 k := by
  induction k with
  | zero => exact hwin
  | succ k ih =>
    show e1.glfwPollEvents k (afterInput h (winAt h e1 k)) =
      e2.glfwPollEvents k (afterInput h (winAt h e2 k))
    rw [ih, hpoll]

/-- C2 amended, at a run in which the user closes the window during the first event poll,
and the same run with all other answers changed: `glfwInit`, the shader, program and buffer
calls, the window handle and the nonzero value of the loader. -/
theorem status_and_calls_depend_on_checks_and_window_queries_witness :
    ((closingEnv 1).glfwCreateWindow = none ↔ (carelessEnv (closingEnv 1)).glfwCreateWindow = none) ∧
    ((closingEnv 1).gladLoadGLLoader = 0 ↔ (carelessEnv (closingEnv 1)).gladLoadGLLoader = 0) ∧
    (main stdHeaders (closingEnv 1) 2).isSome = true ∧
    (main stdHeaders (closingEnv 1) 2).map (fun r => (r.status, r.calls.map Call.fn)) =
      (main stdHeaders (carelessEnv (closingEnv 1)) 2).map
        (fun r => (r.status, r.calls.map Call.fn)) ∧
    (∀ r, main stdHeaders (closingEnv 1) 2 = some r →
      (r.status ≠ 0 ↔ (closingEnv 1).glfwCreateWindow = none ∨
        (closingEnv 1).gladLoadGLLoader = 0) ∧
      ((closingEnv 1).glfwCreateWindow = none ∨ (closingEnv 1).gladLoadGLLoader = 0 →
        r.status = -1) ∧
      ((closingEnv 1).glfwCreateWindow ≠ none → (closingEnv 1).gladLoadGLLoader ≠ 0 →
        r.status = 0)) :=
  ⟨by decide, by decide, by decide,
    status_and_calls_depend_on_checks_and_window_queries stdHeaders
      (closingEnv 1) (carelessEnv (closingEnv 1)) 2 (by decide) (by decide)
      (fun k => by rw [winAt_congr stdHeaders (closingEnv 1) (carelessEnv (closingEnv 1)) rfl rfl k])
      (fun k => by rw [winAt_congr stdHeaders (closingEnv 1) (carelessEnv (closingEnv 1)) rfl rfl k])⟩

/-! ## Uploads and draws -/

theorem replay_append (h : Headers) (a b : List Call) :
    Objects.replay h (a ++ b) = b.foldl (Objects.step h) (Objects.replay h a) := by
  simp [Objects.replay, List.foldl_append]

theorem ready_setup (h : Headers) (env : Env) (window : Nat) (hf : FreshNames env) :
    Objects.Ready h env (Objects.replay h (setupCalls h env window)) := by
  obtain ⟨ha0, ha1, ha, hb0, hb1, hb⟩ := hf
  unfold Objects.Ready Objects.replay setupCalls initCalls contextCalls shaderCalls uploadCalls
    squareDraw triangleDraw
  cases h.apple <;>
    simp [Objects.step, ha0, ha1, ha, hb0, hb1, hb, squareVertices, triangleVertices]

theorem ready_iteration (h : Headers) (env : Env) (window : Nat) (w : WinState) (g : Objects)
    (hr : Objects.Ready h env g) :
    Objects.Ready h env ((iterationCalls h env window w).foldl (Objects.step h) g) := by
  obtain ⟨h1, h2, h3, h4, h5⟩ := hr
  have hs1 : (g.attrib (env.glGenVertexArrays 0)).bind (fun a => g.store a.buffer) =
      (squareDraw h env).store := by
    rw [h1]; simpa [squareDraw] using h3
  have hs2 : (g.attrib (env.glGenVertexArrays 1)).bind (fun a => g.store a.buffer) =
      (triangleDraw h env).store := by
    rw [h2]; simpa [triangleDraw] using h4
  unfold iterationCalls inputCalls frameCalls
  split <;>
    · simp only [List.cons_append, List.nil_append, List.foldl_cons, List.foldl_nil, Objects.step]
      refine ⟨h1, h2, h3, h4, ?_⟩
      intro d hd
      simp only [List.append_assoc, List.mem_append, List.mem_singleton, List.mem_cons,
        List.not_mem_nil, or_false] at hd
      rcases hd with hd | hd | hd
      · exact h5 d hd
      · left; rw [hd, hs1, h1]; rfl
      · right; rw [hd, hs2, h2]; rfl

theorem ready_loop (h : Headers) (env : Env) (window : Nat) (n : Nat) (g : Objects)
    (hr : Objects.Ready h env g) :
    Objects.Ready h env ((loopCalls h env window n).foldl (Objects.step h) g) := by
  unfold loopCalls
  rw [List.foldl_append]
  have hbody : Objects.Ready h env
      (((List.range n).flatMap
        (fun k => iterationCalls h env window (winAt h env k))).foldl (Objects.step h) g) := by
    induction n with
    | zero => simpa using hr
    | succ n ih =>
      rw [List.range_succ, List.flatMap_append, List.foldl_append]
      simpa using ready_iteration h env window (winAt h env n) _ ih
  simpa [Objects.step] using hbody

theorem draws_cleanup (h : Headers) (env : Env) (g : Objects) :
    ((cleanupCalls env).foldl (Objects.step h) g).draws = g.draws := by
  simp [cleanupCalls, Objects.step]

theorem filter_loopCalls_eq (h : Headers) (env : Env) (window n : Nat) (p : Call → Bool)
    (l : List Call) (hp : ∀ w, (iterationCalls h env window w).filter p = l)
    (ht : p (Call.glfwWindowShouldClose window) = false) :
    (loopCalls h env window n).filter p = (List.range n).flatMap (fun _ => l) := by
  unfold loopCalls
  rw [List.filter_append]
  have : ((List.range n).flatMap
      (fun k => iterationCalls h env window (winAt h env k))).filter p =
        (List.range n).flatMap (fun _ => l) := by
    induction n with
    | zero => simp
    | succ n ih =>
      rw [List.range_succ, List.flatMap_append, List.filter_append, ih, List.flatMap_append]
      simp [hp]
  rw [this]
  simp [ht]

theorem flatMap_nil_const {α β : Type} (l : List α) : l.flatMap (fun _ => ([] : List β)) = [] := by
  induction l with
  | nil => rfl
  | cons a l ih => simp [ih]

theorem squareDraw_ok (h : Headers) (env : Env) :
    (squareDraw h env).InBounds h ∧ (squareDraw h env).Exhausts h := by
  constructor
  · refine ⟨_, _, _, rfl, rfl, Or.inr ?_⟩
    simp only [squareDraw]
    omega
  · refine ⟨_, _, _, rfl, rfl, rfl, rfl, rfl, ?_, ?_⟩ <;> simp [squareDraw, squareVertices]

theorem triangleDraw_ok (h : Headers) (env : Env) :
    (triangleDraw h env).InBounds h ∧ (triangleDraw h env).Exhausts h := by
  constructor
  · refine ⟨_, _, _, rfl, rfl, Or.inr ?_⟩
    simp only [triangleDraw]
    omega
  · refine ⟨_, _, _, rfl, rfl, rfl, rfl, rfl, ?_, ?_⟩ <;> simp [triangleDraw, triangleVertices]

/-- C5: `squareVertices` holds 18 floats, 6 vertices of 3 components, and
`triangleVertices` holds 9 floats, 3 vertices of 3 components.  In every run of `main` that
passes both checks and returns, `glBufferData` is called exactly twice, with the whole of
each array and its `sizeof`; `glVertexAttribPointer` is called exactly twice, with
attribute 0, 3 components, a stride of 3 floats and offset 0; every `glDrawArrays` draws
`GL_TRIANGLES` from vertex 0, 6 vertices and 3 vertices by turns.  When the names handed out
by `glGenVertexArrays` and `glGenBuffers` are fresh, every draw is made with the square
array on the buffer that holds `squareVertices` and 6 vertices, or with the triangle array
on the buffer that holds `triangleVertices` and 3 vertices; it stays inside that buffer and
fetches all of its vertices. -/
theorem draws_read_exactly_the_uploads (h : Headers) (env : Env) (fuel window : Nat) (r : Run)
    (hw : env.glfwCreateWindow = some window) (hg : env.gladLoadGLLoader ≠ 0)
    (hr : main h env fuel = some r) :
    squareVertices.length = 18 ∧ squareVertices.length = 6 * 3 ∧
    triangleVertices.length = 9 ∧ triangleVertices.length = 3 * 3 ∧
    r.calls.filter (fun c => c.fn = Fn.glBufferData) =
      [ Call.glBufferData h.GL_ARRAY_BUFFER (18 * h.sizeofFloat) squareVertices h.GL_STATIC_DRAW,
        Call.glBufferData h.GL_ARRAY_BUFFER (9 * h.sizeofFloat) triangleVertices
          h.GL_STATIC_DRAW ] ∧
    r.calls.filter (fun c => c.fn = Fn.glVertexAttribPointer) =
      [ Call.glVertexAttribPointer 0 3 h.GL_FLOAT h.GL_FALSE (3 * h.sizeofFloat) 0,
        Call.glVertexAttribPointer 0 3 h.GL_FLOAT h.GL_FALSE (3 * h.sizeofFloat) 0 ] ∧
    (∃ n, n < fuel ∧ r.calls.filter (fun c => c.fn = Fn.glDrawArrays) =
      (List.range n).flatMap (fun _ =>
        [ Call.glDrawArrays h.GL_TRIANGLES 0 6, Call.glDrawArrays h.GL_TRIANGLES 0 3 ])) ∧
    (FreshNames env →
      ∀ d ∈ (Objects.replay h r.calls).draws,
        (d = squareDraw h env ∨ d = triangleDraw h env) ∧ d.InBounds h ∧ d.Exhausts h) := by
  obtain ⟨n, hn, -, rfl⟩ := (main_some_iff h env fuel window r hw hg).mp hr
  have hsetB : (setupCalls h env window).filter (fun c => c.fn = Fn.glBufferData) =
      [ Call.glBufferData h.GL_ARRAY_BUFFER (18 * h.sizeofFloat) squareVertices h.GL_STATIC_DRAW,
        Call.glBufferData h.GL_ARRAY_BUFFER (9 * h.sizeofFloat) triangleVertices
          h.GL_STATIC_DRAW ] := by
    unfold setupCalls initCalls contextCalls shaderCalls uploadCalls
    cases h.apple <;> simp [Call.fn, List.filter, squareVertices, triangleVertices]
  have hsetP : (setupCalls h env window).filter (fun c => c.fn = Fn.glVertexAttribPointer) =
      [ Call.glVertexAttribPointer 0 3 h.GL_FLOAT h.GL_FALSE (3 * h.sizeofFloat) 0,
        Call.glVertexAttribPointer 0 3 h.GL_FLOAT h.GL_FALSE (3 * h.sizeofFloat) 0 ] := by
    unfold setupCalls initCalls contextCalls shaderCalls uploadCalls
    cases h.apple <;> simp [Call.fn, List.filter]
  have hsetD : (setupCalls h env window).filter (fun c => c.fn = Fn.glDrawArrays) = [] := by
    unfold setupCalls initCalls contextCalls shaderCalls uploadCalls
    cases h.apple <;> simp [Call.fn, List.filter]
  have hitB : ∀ w, (iterationCalls h env window w).filter (fun c => c.fn = Fn.glBufferData)
      = [] := by
    intro w
    unfold iterationCalls inputCalls frameCalls
    split <;> simp [Call.fn, List.filter]
  have hitP : ∀ w, (iterationCalls h env window w).filter
      (fun c => c.fn = Fn.glVertexAttribPointer) = [] := by
    intro w
    unfold iterationCalls inputCalls frameCalls
    split <;> simp [Call.fn, List.filter]
  have hitD : ∀ w, (iterationCalls h env window w).filter (fun c => c.fn = Fn.glDrawArrays)
      = [ Call.glDrawArrays h.GL_TRIANGLES 0 6, Call.glDrawArrays h.GL_TRIANGLES 0 3 ] := by
    intro w
    unfold iterationCalls inputCalls frameCalls
    split <;> simp [Call.fn, List.filter]
  refine ⟨rfl, rfl, rfl, rfl, ?_, ?_, ⟨n, hn, ?_⟩, ?_⟩
  · simp only [List.filter_append, hsetB,
      filter_loopCalls_eq h env window n _ [] hitB (by simp [Call.fn]), flatMap_nil_const]
    simp [cleanupCalls, Call.fn, List.filter]
  · simp only [List.filter_append, hsetP,
      filter_loopCalls_eq h env window n _ [] hitP (by simp [Call.fn]), flatMap_nil_const]
    simp [cleanupCalls, Call.fn, List.filter]
  · simp only [List.filter_append, hsetD,
      filter_loopCalls_eq h env window n _ _ hitD (by simp [Call.fn])]
    simp [cleanupCalls, Call.fn, List.filter]
  · intro hf d hd
    rw [replay_append, replay_append, draws_cleanup] at hd
    have hready := ready_loop h env window n _ (ready_setup h env window hf)
    have hd2 := hready.2.2.2.2 d hd
    refine ⟨hd2, ?_⟩
    rcases hd2 with rfl | rfl
    · exact squareDraw_ok h env
    · exact triangleDraw_ok h env

/-- C5, at a run with one frame: the Y key is down from the start. -/
theorem draws_read_exactly_the_uploads_witness :
    (quietEnv (keyDown 89)).glfwCreateWindow = some 1 ∧
    (quietEnv (keyDown 89)).gladLoadGLLoader ≠ 0 ∧
    FreshNames (quietEnv (keyDown 89)) ∧
    ∃ r, main stdHeaders (quietEnv (keyDown 89)) 2 = some r ∧
      r.calls.filter (fun c => c.fn = Fn.glBufferData) =
        [ Call.glBufferData stdHeaders.GL_ARRAY_BUFFER (18 * stdHeaders.sizeofFloat)
            squareVertices stdHeaders.GL_STATIC_DRAW,
          Call.glBufferData stdHeaders.GL_ARRAY_BUFFER (9 * stdHeaders.sizeofFloat)
            triangleVertices stdHeaders.GL_STATIC_DRAW ] ∧
      (Objects.replay stdHeaders r.calls).draws.length = 2 ∧
      ∀ d ∈ (Objects.replay stdHeaders r.calls).draws,
        (d = squareDraw stdHeaders (quietEnv (keyDown 89)) ∨
          d = triangleDraw stdHeaders (quietEnv (keyDown 89))) ∧
        d.InBounds stdHeaders ∧ d.Exhausts stdHeaders := by
  have hfresh : FreshNames (quietEnv (keyDown 89)) := by
    simp [FreshNames, quietEnv]
  refine ⟨rfl, by decide, hfresh, ?_⟩
  obtain ⟨r, hr⟩ := Option.isSome_iff_exists.mp
    (show (main stdHeaders (quietEnv (keyDown 89)) 2).isSome = true by decide)
  have hlen : (main stdHeaders (quietEnv (keyDown 89)) 2).map
      (fun r => (Objects.replay stdHeaders r.calls).draws.length) = some 2 := by decide
  rw [hr] at hlen
  have key := draws_read_exactly_the_uploads stdHeaders (quietEnv (keyDown 89)) 2 1 r rfl
    (by decide) hr
  exact ⟨r, hr, key.2.2.2.2.1, by simpa using hlen, key.2.2.2.2.2.2.2 hfresh⟩

end Task1
